import Mathlib

/-!
Verification of SentiCoreX's analysis orchestration and degradation layer.

This file is a shallow embedding, in Lean 4, of the code paths of
`services/geminiService.ts` (the structured client, the fallback
classifier and the keyword extractor) and of the orchestrating `App`
component (`handleAnalyze`, `handleCompare`, `isValidTextInput`, the
session quota counter `analysisCount`).

Modelling conventions:
* JavaScript's dynamically typed values (parsed JSON payloads, fields read
  off them) are modelled by the inductive `JsValue`; JS numbers are
  modelled by `ℚ` (the decimal literals of the source are exact in `ℚ`;
  floating-point rounding is out of scope).
* The remote backend is an external capability: each call site takes an
  oracle describing what the backend did (`BackendOutcome`,
  `CompareBehavior`), covering the missing-API-key throw, a transport
  rejection, a malformed-JSON payload, and a successfully parsed payload.
* `async`/`await` control flow is sequentialised; `Promise.all` is
  `promiseAll` (all results, or a rejection if any constituent rejected).
* React state setters are modelled by explicit state passing (`AppState`);
  the final `apiStatus` value of a handler run is returned as `ApiStatus`.
* `new Date().toISOString()` is nondeterministic and is threaded as the
  `now : String` parameter.
* String processing is done on `String.data` character lists; the source's
  regexes `[^\w\s]`, `[a-zA-Z]`, `[.'"]` and `\s+` are ASCII-faithful
  (`Char.toLower`, like JS `toLowerCase`, lower-cases the ASCII range the
  lexicons and validation rules live in).
-/

namespace SentiCoreX

/-- A JavaScript runtime value, as far as this layer observes one: parsed
JSON payloads and the fields the code reads off them (a missing property
reads as `undefined`). JSON.parse never produces `NaN`, so `num` over `ℚ`
is adequate for every payload this layer can see. -/
inductive JsValue where
  | undefined
  | null
  | bool (b : Bool)
  | num (q : ℚ)
  | str (s : String)
  | arr (elems : List JsValue)
  | obj (fields : List (String × JsValue))

/-- Property access `v[k]`: the first binding of `k` in an object, else
`undefined` (payload objects from JSON.parse carry no duplicate keys). -/
def JsValue.getField : JsValue → String → JsValue
  | .obj fields, k =>
    match fields.lookup k with
    | some v => v
    | none => .undefined
  | _, _ => .undefined

/-- JS falsiness, for the source's `analysis.sentenceBreakdown || []`
(`NaN` is unreachable from JSON.parse and is not modelled). -/
def JsValue.isFalsy : JsValue → Bool
  | .undefined => true
  | .null => true
  | .bool b => !b
  | .num q => q == 0
  | .str s => s == ""
  | _ => false

/-- The JS `a || b` read as "default when falsy". -/
def JsValue.orDefault (a b : JsValue) : JsValue :=
  if a.isFalsy then b else a

/-- The TS enum `Sentiment` of `types.ts` (string-valued, closed set). -/
inductive Sentiment where
  | positive
  | negative
  | neutral
deriving DecidableEq

/-- The string value carried by each `Sentiment` enum member. -/
def Sentiment.value : Sentiment → String
  | .positive => "positive"
  | .negative => "negative"
  | .neutral => "neutral"

/-- The `apiUsed` discriminator of `SentimentAnalysisResult`
(`'gemini' | 'fallback'`), the provenance tag of the spec. -/
inductive ApiUsed where
  | gemini
  | fallback
deriving DecidableEq

/-- The record `analyzeSentiment` resolves with. The backend path copies
fields straight out of the parsed payload, so the payload-sourced fields
are dynamically typed (`JsValue`); the fallback path fills them with
well-typed values. `timestamp` is the threaded `now`; the fallback object
literal carries no `sentenceBreakdown` key, read back as `undefined`. -/
structure SentimentAnalysisResult where
  text : String
  sentiment : JsValue
  confidence : JsValue
  scores : JsValue
  keywords : JsValue
  explanation : JsValue
  sentenceBreakdown : JsValue
  timestamp : String
  apiUsed : ApiUsed

/-- The stop-word set of `extractKeywords`. -/
def stopWords : List String :=
  ["a", "an", "the", "and", "or", "but", "in", "on", "at", "to", "for", "of", "with", "by",
   "is", "are", "was", "were", "be", "been", "have", "has", "had", "do", "does", "did",
   "will", "would", "could", "should", "may", "might", "must", "can", "this", "that",
   "these", "those", "i", "you", "he", "she", "it", "we", "they", "me", "him", "her", "us", "them"]

/-- JS regex `\w`: ASCII letters, digits and underscore. -/
def isWordChar (c : Char) : Bool := c.isAlphanum || c == '_'

/-- One step of `.replace(/[^\w\s]/g, ' ')`. -/
def normalizeChar (c : Char) : Char :=
  if isWordChar c || c.isWhitespace then c else ' '

/-- Accumulator pass of `splitWs`. -/
def splitWsAux : List Char → List Char → List (List Char)
  | [], acc => if acc.isEmpty then [] else [acc.reverse]
  | c :: rest, acc =>
    if c.isWhitespace then
      if acc.isEmpty then splitWsAux rest [] else acc.reverse :: splitWsAux rest []
    else splitWsAux rest (c :: acc)

/-- `.split(/\s+/)` up to empty tokens: the maximal whitespace-free runs.
(JS also emits an empty token at a whitespace boundary of the string; the
caller filters on length > 2, so the two readings agree downstream.) -/
def splitWs (cs : List Char) : List (List Char) := splitWsAux cs []

/-- One step of the `wordCount` accumulation: first-seen key order, as a JS
object holds its (non-index-like) string keys. -/
def bumpCount : List (String × Nat) → String → List (String × Nat)
  | [], w => [(w, 1)]
  | (k, n) :: rest, w =>
    if k == w then (k, n + 1) :: rest else (k, n) :: bumpCount rest w

/-- Stable insertion in descending count order. -/
def insertDescBy : String × Nat → List (String × Nat) → List (String × Nat)
  | x, [] => [x]
  | x, y :: ys => if x.2 > y.2 then x :: y :: ys else y :: insertDescBy x ys

/-- `.sort((a, b) => b[1] - a[1])`: JS `Array.prototype.sort` is stable, so
entries of equal count keep their relative order. -/
def sortByCountDesc (l : List (String × Nat)) : List (String × Nat) :=
  l.foldl (fun acc x => insertDescBy x acc) []

/-- `text.toLowerCase()` as a character list. -/
def lowerChars (s : String) : List Char := s.data.map Char.toLower

/-- `extractKeywords` of `geminiService.ts`: lower-case, strip non-word
characters to spaces, split on whitespace, keep tokens of length > 2 that
are not stop words, count, and return the five highest-count tokens. -/
def extractKeywords (text : String) : List String :=
  let words :=
    ((splitWs ((lowerChars text).map normalizeChar)).map (fun cs => String.mk cs)).filter
      (fun w => w.length > 2 && !(stopWords.contains w))
  let wordCount := words.foldl bumpCount []
  ((sortByCountDesc wordCount).take 5).map Prod.fst

/-- The positive lexicon of `createFallbackAnalysis`. -/
def positiveWords : List String :=
  ["love", "great", "good", "excellent", "amazing", "happy", "fantastic", "wonderful", "best", "perfect"]

/-- The negative lexicon of `createFallbackAnalysis`. -/
def negativeWords : List String :=
  ["hate", "terrible", "bad", "awful", "horrible", "sad", "worst", "disappointing", "poor"]

/-- Whether `needle` is a prefix of `hay`. -/
def startsWithList : List Char → List Char → Bool
  | [], _ => true
  | _ :: _, [] => false
  | a :: as, b :: bs => a == b && startsWithList as bs

/-- JS `hay.includes(needle)`: substring containment. -/
def containsSub (hay needle : List Char) : Bool :=
  match hay with
  | [] => needle.isEmpty
  | _ :: rest => startsWithList needle hay || containsSub rest needle

/-- `textLower.includes(word)` for one lexicon word. -/
def includesWord (textLower : List Char) (w : String) : Bool :=
  containsSub textLower w.data

/-- `positiveCount`: how many positive lexicon words the lower-cased text
contains (each word counted at most once, however often it occurs). -/
def positiveCount (text : String) : Nat :=
  (positiveWords.filter (fun w => includesWord (lowerChars text) w)).length

/-- `negativeCount`, symmetric to `positiveCount`. -/
def negativeCount (text : String) : Nat :=
  (negativeWords.filter (fun w => includesWord (lowerChars text) w)).length

/-- The sentiment/confidence decision of `createFallbackAnalysis`:
positive or negative by strict count majority (confidence
`min(0.95, 0.7 + count * 0.05)`), neutral with confidence `0.75` on a
tie. -/
def fallbackCore (text : String) : Sentiment × ℚ :=
  let pc := positiveCount text
  let nc := negativeCount text
  if pc > nc then (.positive, min 0.95 (0.7 + (pc : ℚ) * 0.05))
  else if nc > pc then (.negative, min 0.95 (0.7 + (nc : ℚ) * 0.05))
  else (.neutral, 0.75)

/-- `createFallbackAnalysis` of `geminiService.ts`: the deterministic local
classifier. The winning label's score is the confidence, each other label
scores `(1 - confidence) / 2`; keywords come from `extractKeywords`; the
result object carries no `sentenceBreakdown` key. -/
def createFallbackAnalysis (now text : String) : SentimentAnalysisResult :=
  let sentiment := (fallbackCore text).1
  let confidence := (fallbackCore text).2
  { text := text
    sentiment := .str sentiment.value
    confidence := .num confidence
    scores := .obj
      [("positive", .num (if sentiment = .positive then confidence else (1 - confidence) / 2)),
       ("negative", .num (if sentiment = .negative then confidence else (1 - confidence) / 2)),
       ("neutral", .num (if sentiment = .neutral then confidence else (1 - confidence) / 2))]
    keywords := .arr ((extractKeywords text).map JsValue.str)
    explanation := .str ("Analysis based on keyword matching. The text seems to be " ++ sentiment.value ++ ".")
    sentenceBreakdown := .undefined
    timestamp := now
    apiUsed := .fallback }

/-- What the backend interaction of one `analyzeSentiment` call did:
`noApiKey` (the `getAiClient` throw), `transportError` (the
`generateContent` rejection), `malformedJson` (a `JSON.parse` throw on
`response.text`), or a successfully parsed payload. -/
inductive BackendOutcome where
  | noApiKey
  | transportError
  | malformedJson
  | payload (v : JsValue)

/-- The outcomes `analyzeSentiment`'s catch-all converts into the
fallback path. -/
def isBackendFailure : BackendOutcome → Bool
  | .payload _ => false
  | _ => true

/-- `analyzeSentiment` of `geminiService.ts`. Every throw inside the `try`
(no API key, transport failure, JSON.parse failure, and the `TypeError` of
reading `.sentiment` off a `null` payload) lands in the catch and returns
the fallback analysis. On a parsed non-null payload the fields are copied
off the payload as-is (`analysis.sentiment as Sentiment` is erased at
runtime), with `sentenceBreakdown || []` the only defaulting. -/
def analyzeSentiment (b : BackendOutcome) (now : String) (text : String) :
    SentimentAnalysisResult :=
  match b with
  | .payload v =>
    match v with
    | .null => createFallbackAnalysis now text
    | .undefined => createFallbackAnalysis now text
    | _ =>
      { text := text
        sentiment := v.getField "sentiment"
        confidence := v.getField "confidence"
        scores := v.getField "scores"
        keywords := v.getField "keywords"
        explanation := v.getField "explanation"
        sentenceBreakdown := (v.getField "sentenceBreakdown").orDefault (.arr [])
        timestamp := now
        apiUsed := .gemini }
  | _ => createFallbackAnalysis now text

/-- `MAX_ANALYSES` of the App component: the session quota limit. -/
def MAX_ANALYSES : Nat := 15

/-- The `{valid, message}` record `isValidTextInput` returns. -/
structure ValidationResult where
  valid : Bool
  message : String
deriving DecidableEq

/-- Message of the letters rule of `isValidTextInput`. -/
def lettersMsg : String :=
  "Invalid input. Please enter text that includes letters, not just numbers or symbols."

/-- Message of the punctuation rule of `isValidTextInput`. -/
def punctMsg : String :=
  "Invalid input. The input must not include full stops and inverted commas."

/-- `isValidTextInput` of the App component: the text must match
`/[a-zA-Z]/` and must not match `/[.'"]/`; each rule has its own
message. -/
def isValidTextInput (text : String) : ValidationResult :=
  if !(text.data.any Char.isAlpha) then ⟨false, lettersMsg⟩
  else if text.data.any (fun c => c == '.' || c == '\'' || c == '"') then ⟨false, punctMsg⟩
  else ⟨true, ""⟩

/-- The validation loop of `handleAnalyze`: the message of the first
invalid text, if any. -/
def firstInvalid (texts : List String) : Option String :=
  texts.findSome? (fun t =>
    let v := isValidTextInput t
    if v.valid then none else some v.message)

/-- The final `apiStatus` value a handler run leaves behind. -/
inductive ApiStatus where
  | ready
  | error (message : String)
  | success (message : String)
deriving DecidableEq

/-- The orchestrator state the handlers mutate: the session quota counter
`analysisCount` and the result history `results` (newest first). The mood
enhancer, deeper-analysis and presentation state is omitted: none of it
feeds back into the quota or the history. -/
structure AppState where
  analysisCount : Nat
  results : List SentimentAnalysisResult

/-- The fresh state of a session. -/
def initialState : AppState := ⟨0, []⟩

/-- The argument of `handleAnalyze`: `string | string[]`. -/
inductive AnalyzeInput where
  | single (text : String)
  | batch (texts : List String)

/-- `Array.isArray(input) ? input.slice(0, 10) : [input]`: the texts the
handler actually considers. -/
def AnalyzeInput.texts : AnalyzeInput → List String
  | .single t => [t]
  | .batch ts => ts.take 10

/-- What one batch item's promise did: it either fulfilled after running
`analyzeSentiment` against the given backend outcome, or rejected with a
host-level exception outside `analyzeSentiment`'s catch-all (the
"unexpected exception" case the spec discusses; `analyzeSentiment` itself
never rejects). -/
inductive ItemBehavior where
  | unexpected
  | runs (b : BackendOutcome)

/-- One batch item's promise as an `Except`. -/
def runItem (beh : ItemBehavior) (now text : String) :
    Except Unit SentimentAnalysisResult :=
  match beh with
  | .unexpected => .error ()
  | .runs b => .ok (analyzeSentiment b now text)

/-- `texts.map(text => analyzeSentiment(text))` with the per-position
behaviour oracle `env`. -/
def dispatchBatch (env : Nat → ItemBehavior) (now : String) (texts : List String) :
    List (Except Unit SentimentAnalysisResult) :=
  texts.enum.map (fun p => runItem (env p.1) now p.2)

/-- `Promise.all`: every fulfillment in order, or a rejection if any
constituent rejected. -/
def promiseAll {α : Type} : List (Except Unit α) → Except Unit (List α)
  | [] => .ok []
  | .error e :: _ => .error e
  | .ok a :: rest =>
    match promiseAll rest with
    | .error e => .error e
    | .ok as => .ok (a :: as)

/-- The quota-rejection message of `handleAnalyze` (JS `15 - used` is
negative only in states the handlers never reach; there, as here with
truncated subtraction, the message shows "no"). -/
def quotaAnalyzeMsg (remaining : Nat) : String :=
  let amount := if remaining > 0 then toString remaining else "no"
  let noun := if remaining == 1 then "analysis" else "analyses"
  "You've reached your usage limit for this session. You can perform " ++ amount ++ " more " ++ noun ++ "."

/-- The message of `handleAnalyze`'s catch-all. -/
def oopsMsg : String :=
  "Oops! Something went wrong during the analysis. Please try again shortly."

/-- The success message of `handleAnalyze`. -/
def successMsg (n : Nat) : String :=
  "Analysis complete for " ++ toString n ++ " text(s)!"

/-- What one `handleAnalyze` run produced: the state afterwards, the final
`apiStatus`, and the texts for which `analyzeSentiment` was invoked at all
(empty when validation or the quota guard rejected first). -/
structure AnalyzeStep where
  state : AppState
  status : ApiStatus
  backendCalls : List String

/-- The executing branch of `handleAnalyze`: dispatch all items, collect
with `Promise.all`. A rejection lands in the catch (generic error, state
untouched). An empty batch reaches `newResults[0].sentiment`, whose
`TypeError` also lands in the catch after the two no-op state updates.
Otherwise the results are prepended to the history, the counter grows by
the number of completed analyses, and the status is the success message.
(The follow-up mood-enhancer call of the single-text case is omitted: its
failure is swallowed by an inner catch and it touches neither the counter,
the history nor the final status.) -/
def runBatch (env : Nat → ItemBehavior) (now : String) (st : AppState)
    (texts : List String) : AnalyzeStep :=
  match promiseAll (dispatchBatch env now texts) with
  | .error _ => ⟨st, .error oopsMsg, texts⟩
  | .ok [] => ⟨st, .error oopsMsg, texts⟩
  | .ok newResults =>
    ⟨⟨st.analysisCount + newResults.length, newResults ++ st.results⟩,
     .success (successMsg newResults.length), texts⟩

/-- `handleAnalyze` of the App component: truncate to ten texts, validate
each in order, check the quota (`analysisCount + analysesToRun >
MAX_ANALYSES` rejects without backend calls), then execute. -/
def handleAnalyze (env : Nat → ItemBehavior) (now : String) (st : AppState)
    (input : AnalyzeInput) : AnalyzeStep :=
  let texts := input.texts
  match firstInvalid texts with
  | some msg => ⟨st, .error msg, []⟩
  | none =>
    if st.analysisCount + texts.length > MAX_ANALYSES then
      ⟨st, .error (quotaAnalyzeMsg (MAX_ANALYSES - st.analysisCount)), []⟩
    else
      runBatch env now st texts

/-- What `compareSentiments`'s backend interaction did. -/
inductive CompareBehavior where
  | noApiKey
  | transportError
  | malformedJson
  | payload (v : JsValue)

/-- The behaviours `compareSentiments` converts into its thrown error. -/
def isCompareFailure : CompareBehavior → Bool
  | .payload _ => false
  | _ => true

/-- The user-facing error `compareSentiments` throws on any failure. -/
def compareFailMsg : String :=
  "We couldn't compare the texts right now. This might be due to the complexity of the text or a temporary connection issue. Please try again with different text."

/-- `compareSentiments` of `geminiService.ts`: a parsed payload is returned
as-is (the `as ComparativeAnalysisResult` cast is erased at runtime); every
failure inside the `try` is rethrown as the fixed user-facing message, and
no fallback of any kind is attempted. -/
def compareSentiments (beh : CompareBehavior) (textA textB : String) :
    Except String JsValue :=
  match beh with
  | .payload v => .ok v
  | _ => .error compareFailMsg

/-- The quota-rejection message of `handleCompare`. -/
def compareQuotaMsg : String :=
  "You've reached your usage limit for this session, so a comparison can't be run."

/-- What one `handleCompare` run produced: the state afterwards, the
`apiStatus` error message if the run was rejected before executing, the
final comparison-modal content (`none` when the modal was never opened,
otherwise the result or the surfaced error message), and how many times the
comparison backend operation was invoked. -/
structure CompareStep where
  state : AppState
  rejection : Option String
  modal : Option (Except String JsValue)
  compareCalls : Nat

/-- `handleCompare` of the App component: quota first (`analysisCount >=
MAX_ANALYSES` rejects), then text A, then text B (each rejection names the
text), then the comparison call; a success commits one quota unit, a
failure leaves the error message in the modal (the thrown message is
non-empty, so `error.message || ...` surfaces it verbatim) and touches
neither the counter nor the history. -/
def handleCompare (beh : CompareBehavior) (st : AppState) (textA textB : String) :
    CompareStep :=
  if st.analysisCount ≥ MAX_ANALYSES then ⟨st, some compareQuotaMsg, none, 0⟩
  else
    let vA := isValidTextInput textA
    if !vA.valid then ⟨st, some ("Text A: " ++ vA.message), none, 0⟩
    else
      let vB := isValidTextInput textB
      if !vB.valid then ⟨st, some ("Text B: " ++ vB.message), none, 0⟩
      else
        match compareSentiments beh textA textB with
        | .ok r => ⟨⟨st.analysisCount + 1, st.results⟩, none, some (.ok r), 1⟩
        | .error m => ⟨st, none, some (.error m), 1⟩

/-- One inbound request of the quota-bearing kinds, with its environment
oracle. -/
inductive Request where
  | analyzeReq (input : AnalyzeInput) (env : Nat → ItemBehavior)
  | compareReq (textA textB : String) (beh : CompareBehavior)

/-- The state after serving one request. -/
def applyRequest (now : String) (st : AppState) : Request → AppState
  | .analyzeReq input env => (handleAnalyze env now st input).state
  | .compareReq a b beh => (handleCompare beh st a b).state

/-- How many analyses the request actually completed, read off the
observable outcome: the results a successful analyze run added to the
history, one for a comparison whose modal ended with a result, zero for
every rejected or failed run. -/
def completedUnits (now : String) (st : AppState) : Request → Nat
  | .analyzeReq input env =>
    let s := handleAnalyze env now st input
    match s.status with
    | .success _ => s.state.results.length - st.results.length
    | _ => 0
  | .compareReq a b beh =>
    match (handleCompare beh st a b).modal with
    | some (.ok _) => 1
    | _ => 0

/-- Serve a sequence of requests. -/
def runRequests (now : String) : AppState → List Request → AppState
  | st, [] => st
  | st, r :: rs => runRequests now (applyRequest now st r) rs

/-- Total number of analyses that completed over a request sequence. -/
def totalCompleted (now : String) : AppState → List Request → Nat
  | _, [] => 0
  | st, r :: rs => completedUnits now st r + totalCompleted now (applyRequest now st r) rs

/-- A concrete environment oracle: every item's backend call fails in
transport, exercising the degradation path. -/
def envAllTransport : Nat → ItemBehavior := fun _ => .runs .transportError

/-- Structural validity of a result's label field. -/
def validLabel : JsValue → Bool
  | .str s => s == "positive" || s == "negative" || s == "neutral"
  | _ => false

/-- A score-like field: a number in [0, 1]. -/
def numIn01 : JsValue → Bool
  | .num q => decide (0 ≤ q) && decide (q ≤ 1)
  | _ => false

/-- Whether a dynamic value is a string. -/
def isStrVal : JsValue → Bool
  | .str _ => true
  | _ => false

/-- Structural validity of the keywords field: at most five strings. -/
def validKeywords : JsValue → Bool
  | .arr xs => decide (xs.length ≤ 5) && xs.all isStrVal
  | _ => false

/-- Structural validity of the optional sentence breakdown: absent or a
sequence. -/
def validBreakdown : JsValue → Bool
  | .undefined => true
  | .arr _ => true
  | _ => false

/-- Structural validity of an `AnalysisResult` against the spec's data
model: an enumerated label, confidence and the three per-class scores in
[0, 1], at most five string keywords, a string explanation, and an
absent-or-sequence sentence breakdown. -/
def structurallyValidResult (r : SentimentAnalysisResult) : Bool :=
  validLabel r.sentiment && numIn01 r.confidence &&
  numIn01 (r.scores.getField "positive") && numIn01 (r.scores.getField "negative") &&
  numIn01 (r.scores.getField "neutral") &&
  validKeywords r.keywords && isStrVal r.explanation && validBreakdown r.sentenceBreakdown

/-- Numeric reading of a score entry. -/
def JsValue.asNum : JsValue → ℚ
  | .num q => q
  | _ => 0

/-- Sum of the three per-class scores of a result. -/
def scoreSum (r : SentimentAnalysisResult) : ℚ :=
  (r.scores.getField "positive").asNum + (r.scores.getField "negative").asNum +
    (r.scores.getField "neutral").asNum

/-- A concrete environment oracle for the partial-batch scenario: item 0's
promise rejects with a host-level exception, every later item's backend
call fails in transport (so the item itself would complete via the
fallback). -/
def mixedEnv : Nat → ItemBehavior :=
  fun i => if i == 0 then .unexpected else .runs .transportError

/-- A concrete backend payload that parses as JSON but violates the output
contract: `scores`, `keywords`, `explanation` and `sentenceBreakdown` are
missing and `confidence` is outside [0, 1]. -/
def badPayload : JsValue :=
  .obj [("sentiment", .str "positive"), ("confidence", .num 2)]

/-- Fifteen distinct valid batch texts for the cap scenario. -/
def fifteenTexts : List String :=
  (List.range 15).map (fun i => "text number " ++ toString i)

/-! Helper lemmas about the fallback classifier. -/

lemma fallbackCore_pos (text : String)
    (h : positiveCount text > negativeCount text) :
    fallbackCore text = (.positive, min 0.95 (0.7 + (positiveCount text : ℚ) * 0.05)) := by
  simp only [fallbackCore]
  rw [if_pos h]

lemma fallbackCore_neg (text : String)
    (h : negativeCount text > positiveCount text) :
    fallbackCore text = (.negative, min 0.95 (0.7 + (negativeCount text : ℚ) * 0.05)) := by
  simp only [fallbackCore]
  rw [if_neg (by omega), if_pos h]

lemma fallbackCore_tie (text : String)
    (h : positiveCount text = negativeCount text) :
    fallbackCore text = (.neutral, 0.75) := by
  simp only [fallbackCore]
  rw [if_neg (by omega), if_neg (by omega)]

lemma fallbackCore_conf_ge (text : String) : (0.7 : ℚ) ≤ (fallbackCore text).2 := by
  simp only [fallbackCore]
  split_ifs with h1 h2
  · refine le_min (by norm_num) ?_
    have : (0 : ℚ) ≤ (positiveCount text : ℚ) * 0.05 := by positivity
    linarith
  · refine le_min (by norm_num) ?_
    have : (0 : ℚ) ≤ (negativeCount text : ℚ) * 0.05 := by positivity
    linarith
  · norm_num

lemma fallbackCore_conf_le (text : String) : (fallbackCore text).2 ≤ (0.95 : ℚ) := by
  simp only [fallbackCore]
  split_ifs with h1 h2
  · exact min_le_left _ _
  · exact min_le_left _ _
  · norm_num

lemma extractKeywords_length_le (text : String) : (extractKeywords text).length ≤ 5 := by
  simp only [extractKeywords, List.length_map, List.length_take]
  exact min_le_left _ _

lemma createFallbackAnalysis_scores_positive (now text : String) :
    (createFallbackAnalysis now text).scores.getField "positive" =
      .num (if (fallbackCore text).1 = .positive then (fallbackCore text).2
            else (1 - (fallbackCore text).2) / 2) := rfl

lemma createFallbackAnalysis_scores_negative (now text : String) :
    (createFallbackAnalysis now text).scores.getField "negative" =
      .num (if (fallbackCore text).1 = .negative then (fallbackCore text).2
            else (1 - (fallbackCore text).2) / 2) := rfl

lemma createFallbackAnalysis_scores_neutral (now text : String) :
    (createFallbackAnalysis now text).scores.getField "neutral" =
      .num (if (fallbackCore text).1 = .neutral then (fallbackCore text).2
            else (1 - (fallbackCore text).2) / 2) := rfl

lemma numIn01_of_bounds (q : ℚ) (h0 : 0 ≤ q) (h1 : q ≤ 1) : numIn01 (.num q) = true := by
  simp [numIn01, h0, h1]

lemma score_triple_sum (s : Sentiment) (c : ℚ) :
    (if s = .positive then c else (1 - c) / 2) +
      (if s = .negative then c else (1 - c) / 2) +
      (if s = .neutral then c else (1 - c) / 2) = 1 := by
  cases s <;> simp <;> ring

lemma createFallbackAnalysis_valid (now text : String) :
    structurallyValidResult (createFallbackAnalysis now text) = true := by
  have hge := fallbackCore_conf_ge text
  have hle := fallbackCore_conf_le text
  have hconf : numIn01 (.num (fallbackCore text).2) = true :=
    numIn01_of_bounds _ (by linarith) (by linarith)
  have hother : numIn01 (.num ((1 - (fallbackCore text).2) / 2)) = true :=
    numIn01_of_bounds _ (by linarith) (by linarith)
  have hscore : ∀ s : Sentiment, numIn01
      (.num (if (fallbackCore text).1 = s then (fallbackCore text).2
             else (1 - (fallbackCore text).2) / 2)) = true := by
    intro s
    split_ifs
    · exact hconf
    · exact hother
  simp only [structurallyValidResult, createFallbackAnalysis_scores_positive,
    createFallbackAnalysis_scores_negative, createFallbackAnalysis_scores_neutral,
    createFallbackAnalysis, hscore, Bool.and_eq_true]
  refine ⟨⟨⟨⟨⟨⟨⟨?_, ?_⟩, ?_⟩, ?_⟩, ?_⟩, ?_⟩, ?_⟩, ?_⟩
  · cases h : (fallbackCore text).1 <;> simp [validLabel, Sentiment.value]
  · exact hconf
  · exact hscore _
  · exact hscore _
  · exact hscore _
  · have hlen := extractKeywords_length_le text
    simp [validKeywords, isStrVal, hlen, List.all_map, Function.comp]
  · simp [isStrVal]
  · simp [validBreakdown]

/-! Claim theorems. -/

/-- C1: for every input text and every backend failure (missing API key,
transport error, malformed JSON response), `analyzeSentiment` still
terminates successfully with the fallback analysis: a structurally valid
`AnalysisResult` whose provenance (`apiUsed`) is `fallback`. The fallback
path itself is the total function `createFallbackAnalysis`, so it never
fails for any string input. -/
theorem analyzeSentiment_backend_failure_fallback (b : BackendOutcome)
    (hb : isBackendFailure b = true) (now text : String) :
    analyzeSentiment b now text = createFallbackAnalysis now text ∧
    structurallyValidResult (analyzeSentiment b now text) = true ∧
    (analyzeSentiment b now text).apiUsed = ApiUsed.fallback := by
  cases b with
  | payload v => simp [isBackendFailure] at hb
  | noApiKey => exact ⟨rfl, createFallbackAnalysis_valid now text, rfl⟩
  | transportError => exact ⟨rfl, createFallbackAnalysis_valid now text, rfl⟩
  | malformedJson => exact ⟨rfl, createFallbackAnalysis_valid now text, rfl⟩

/-- Witness for C1: the transport-failure case at a concrete timestamp and
input text. -/
theorem analyzeSentiment_backend_failure_fallback_witness :
    analyzeSentiment .transportError "2024-01-01T00:00:00.000Z" "hello world" =
      createFallbackAnalysis "2024-01-01T00:00:00.000Z" "hello world" ∧
    structurallyValidResult
      (analyzeSentiment .transportError "2024-01-01T00:00:00.000Z" "hello world") = true ∧
    (analyzeSentiment .transportError "2024-01-01T00:00:00.000Z" "hello world").apiUsed =
      ApiUsed.fallback :=
  analyzeSentiment_backend_failure_fallback .transportError rfl
    "2024-01-01T00:00:00.000Z" "hello world"

/-- C3: the fallback decision rule. The label follows the strict majority
of lexicon hits (neutral on a tie, 0/0 included); the confidence is
`min(0.95, 0.70 + 0.05 * winningCount)` for positive/negative and exactly
0.75 for neutral; the winning label's score equals the confidence, each
other label scores `(1 - confidence) / 2`, and the three scores sum to 1.
In particular, with the backend unavailable, analyzing "I love this!"
yields label positive, confidence 0.75 and provenance fallback. -/
theorem createFallbackAnalysis_decision_rule (now text : String) :
    (positiveCount text > negativeCount text →
      (createFallbackAnalysis now text).sentiment = .str "positive" ∧
      (createFallbackAnalysis now text).confidence =
        .num (min 0.95 (0.7 + 0.05 * (positiveCount text : ℚ))) ∧
      (createFallbackAnalysis now text).scores.getField "positive" =
        (createFallbackAnalysis now text).confidence) ∧
    (negativeCount text > positiveCount text →
      (createFallbackAnalysis now text).sentiment = .str "negative" ∧
      (createFallbackAnalysis now text).confidence =
        .num (min 0.95 (0.7 + 0.05 * (negativeCount text : ℚ))) ∧
      (createFallbackAnalysis now text).scores.getField "negative" =
        (createFallbackAnalysis now text).confidence) ∧
    (positiveCount text = negativeCount text →
      (createFallbackAnalysis now text).sentiment = .str "neutral" ∧
      (createFallbackAnalysis now text).confidence = .num 0.75 ∧
      (createFallbackAnalysis now text).scores.getField "neutral" =
        (createFallbackAnalysis now text).confidence) ∧
    ((createFallbackAnalysis now text).sentiment ≠ .str "positive" →
      (createFallbackAnalysis now text).scores.getField "positive" =
        .num ((1 - (fallbackCore text).2) / 2)) ∧
    ((createFallbackAnalysis now text).sentiment ≠ .str "negative" →
      (createFallbackAnalysis now text).scores.getField "negative" =
        .num ((1 - (fallbackCore text).2) / 2)) ∧
    ((createFallbackAnalysis now text).sentiment ≠ .str "neutral" →
      (createFallbackAnalysis now text).scores.getField "neutral" =
        .num ((1 - (fallbackCore text).2) / 2)) ∧
    scoreSum (createFallbackAnalysis now text) = 1 ∧
    ((analyzeSentiment .transportError now "I love this!").sentiment = .str "positive" ∧
     (analyzeSentiment .transportError now "I love this!").confidence = .num 0.75 ∧
     (analyzeSentiment .transportError now "I love this!").apiUsed = ApiUsed.fallback) := by
  have hsent : ∀ t : String,
      (createFallbackAnalysis now t).sentiment = .str (fallbackCore t).1.value := fun _ => rfl
  have hconf : ∀ t : String,
      (createFallbackAnalysis now t).confidence = .num (fallbackCore t).2 := fun _ => rfl
  have elove : analyzeSentiment .transportError now "I love this!" =
      createFallbackAnalysis now "I love this!" := rfl
  have hlove : positiveCount "I love this!" > negativeCount "I love this!" := by decide
  have hsum : scoreSum (createFallbackAnalysis now text) =
      (if (fallbackCore text).1 = .positive then (fallbackCore text).2
       else (1 - (fallbackCore text).2) / 2) +
      (if (fallbackCore text).1 = .negative then (fallbackCore text).2
       else (1 - (fallbackCore text).2) / 2) +
      (if (fallbackCore text).1 = .neutral then (fallbackCore text).2
       else (1 - (fallbackCore text).2) / 2) := rfl
  refine ⟨?_, ?_, ?_, ?_, ?_, ?_, ?_, ?_, ?_, ?_⟩
  · intro h
    refine ⟨?_, ?_, ?_⟩
    · rw [hsent, fallbackCore_pos text h]
      rfl
    · rw [hconf, fallbackCore_pos text h]
      simp [mul_comm]
    · rw [createFallbackAnalysis_scores_positive, hconf, fallbackCore_pos text h]
      simp
  · intro h
    refine ⟨?_, ?_, ?_⟩
    · rw [hsent, fallbackCore_neg text h]
      rfl
    · rw [hconf, fallbackCore_neg text h]
      simp [mul_comm]
    · rw [createFallbackAnalysis_scores_negative, hconf, fallbackCore_neg text h]
      simp
  · intro h
    refine ⟨?_, ?_, ?_⟩
    · rw [hsent, fallbackCore_tie text h]
      rfl
    · rw [hconf, fallbackCore_tie text h]
    · rw [createFallbackAnalysis_scores_neutral, hconf, fallbackCore_tie text h]
      simp
  · intro h
    rw [hsent] at h
    rw [createFallbackAnalysis_scores_positive, if_neg]
    intro heq
    refine h ?_
    rw [heq]
    rfl
  · intro h
    rw [hsent] at h
    rw [createFallbackAnalysis_scores_negative, if_neg]
    intro heq
    refine h ?_
    rw [heq]
    rfl
  · intro h
    rw [hsent] at h
    rw [createFallbackAnalysis_scores_neutral, if_neg]
    intro heq
    refine h ?_
    rw [heq]
    rfl
  · rw [hsum]
    exact score_triple_sum _ _
  · rw [elove, hsent, fallbackCore_pos _ hlove]
    rfl
  · rw [elove, hconf, fallbackCore_pos _ hlove,
      show positiveCount "I love this!" = 1 from by decide]
    simp only [JsValue.num.injEq]
    norm_num [min_def]
  · rfl

/-! Quota accounting. -/

lemma promiseAll_ok_length {α : Type} (xs : List (Except Unit α)) :
    ∀ ys : List α, promiseAll xs = .ok ys → ys.length = xs.length := by
  induction xs with
  | nil =>
    intro ys h
    simp only [promiseAll] at h
    cases h
    rfl
  | cons x rest ih =>
    intro ys h
    cases x with
    | error e => simp [promiseAll] at h
    | ok a =>
      simp only [promiseAll] at h
      cases hp : promiseAll rest with
      | error e => rw [hp] at h; cases h
      | ok as =>
        rw [hp] at h
        cases h
        simp [ih as hp]

lemma dispatchBatch_length (env : Nat → ItemBehavior) (now : String)
    (texts : List String) : (dispatchBatch env now texts).length = texts.length := by
  simp [dispatchBatch]

lemma applyRequest_quota (now : String) (st : AppState) (r : Request)
    (h : st.analysisCount ≤ MAX_ANALYSES) :
    (applyRequest now st r).analysisCount = st.analysisCount + completedUnits now st r ∧
    (applyRequest now st r).analysisCount ≤ MAX_ANALYSES := by
  cases r with
  | analyzeReq input env =>
    simp only [applyRequest, completedUnits, handleAnalyze]
    cases hv : firstInvalid input.texts with
    | some msg => simp [hv, h]
    | none =>
      by_cases hq : st.analysisCount + input.texts.length > MAX_ANALYSES
      · simp [if_pos hq, h]
      · simp only [if_neg hq]
        unfold runBatch
        cases hp : promiseAll (dispatchBatch env now input.texts) with
        | error e => simp [h]
        | ok rs =>
          cases rs with
          | nil => simp [h]
          | cons r0 rest =>
            have hlen : (r0 :: rest).length = input.texts.length := by
              rw [promiseAll_ok_length _ _ hp, dispatchBatch_length]
            refine ⟨?_, ?_⟩
            · show st.analysisCount + (r0 :: rest).length =
                st.analysisCount + (((r0 :: rest) ++ st.results).length - st.results.length)
              rw [List.length_append]
              omega
            · show st.analysisCount + (r0 :: rest).length ≤ MAX_ANALYSES
              omega
  | compareReq a b beh =>
    simp only [applyRequest, completedUnits]
    unfold handleCompare
    by_cases hq : MAX_ANALYSES ≤ st.analysisCount
    · simp [if_pos hq, h]
    · rw [if_neg hq]
      cases hA : (isValidTextInput a).valid with
      | false => simp [hA, h]
      | true =>
        simp only [hA, Bool.not_true, Bool.false_eq_true, if_false]
        cases hB : (isValidTextInput b).valid with
        | false => simp [hB, h]
        | true =>
          simp only [hB, Bool.not_true, Bool.false_eq_true, if_false]
          cases beh with
          | payload v =>
            refine ⟨?_, ?_⟩
            · simp [compareSentiments]
            · simp only [compareSentiments]
              omega
          | noApiKey => simp [compareSentiments, h]
          | transportError => simp [compareSentiments, h]
          | malformedJson => simp [compareSentiments, h]

lemma runRequests_quota (now : String) (reqs : List Request) :
    ∀ st : AppState, st.analysisCount ≤ MAX_ANALYSES →
      (runRequests now st reqs).analysisCount = st.analysisCount + totalCompleted now st reqs ∧
      (runRequests now st reqs).analysisCount ≤ MAX_ANALYSES := by
  induction reqs with
  | nil =>
    intro st h
    simpa [runRequests, totalCompleted] using h
  | cons r rs ih =>
    intro st h
    obtain ⟨h1, h2⟩ := applyRequest_quota now st r h
    obtain ⟨h3, h4⟩ := ih (applyRequest now st r) h2
    refine ⟨?_, h4⟩
    simp only [runRequests, totalCompleted]
    rw [h3, h1]
    omega

/-- C2: after any sequence of analyze, batch-analyze and compare requests
(each run against an arbitrary backend environment), the session counter
never exceeds `MAX_ANALYSES = 15`, and it equals the total number of
analyses that actually completed: the results a successful analyze run
committed to the history (each completed batch item counting one) plus one
per successful comparison, with nothing added for rejected or failed
requests. -/
theorem quota_invariant_sequences (now : String) (reqs : List Request) :
    (runRequests now initialState reqs).analysisCount ≤ MAX_ANALYSES ∧
    (runRequests now initialState reqs).analysisCount =
      totalCompleted now initialState reqs := by
  obtain ⟨h1, h2⟩ := runRequests_quota now reqs initialState (by simp [initialState, MAX_ANALYSES])
  refine ⟨h2, ?_⟩
  rw [h1]
  simp [initialState]

/-- C4 counterexample: the single-text success path does not validate the
parsed payload against the output contract and does not clamp score-like
fields. The payload `badPayload` parses as JSON but misses the required
`scores`, `keywords`, `explanation` and `sentenceBreakdown` fields and
carries `confidence = 2` outside [0, 1]; `analyzeSentiment` nevertheless
accepts it as a backend result (provenance `gemini`), copying the
out-of-range confidence verbatim and leaving `scores` undefined, instead
of treating the contract violation as a backend failure. -/
theorem contract_validation_counterexample :
    (analyzeSentiment (.payload badPayload) "t0" "hello").apiUsed = ApiUsed.gemini ∧
    (analyzeSentiment (.payload badPayload) "t0" "hello").confidence = .num 2 ∧
    (analyzeSentiment (.payload badPayload) "t0" "hello").scores = .undefined ∧
    structurallyValidResult (analyzeSentiment (.payload badPayload) "t0" "hello") = false := by
  refine ⟨rfl, rfl, rfl, ?_⟩
  have h1 : numIn01 ((analyzeSentiment (.payload badPayload) "t0" "hello").scores.getField
      "positive") = false := rfl
  simp [structurallyValidResult, h1]

/-- C4 amended: on the single-text path the only acceptance checks are
JSON parsing and the null-payload `TypeError` (both land in the catch and
trigger the fallback); a parsed non-null payload is accepted with its
fields copied verbatim — no field validation, no enumeration check, and no
clamping of out-of-range numbers (witnessed here by an arbitrary `q : ℚ`
confidence kept as-is and a missing `sentiment` read back as undefined) —
with `sentenceBreakdown || []` the only defaulting applied. -/
theorem single_path_parse_only_no_clamping (now text : String) (q : ℚ) :
    analyzeSentiment .malformedJson now text = createFallbackAnalysis now text ∧
    analyzeSentiment (.payload .null) now text = createFallbackAnalysis now text ∧
    (analyzeSentiment (.payload (.obj [("confidence", .num q)])) now text).confidence =
      .num q ∧
    (analyzeSentiment (.payload (.obj [("confidence", .num q)])) now text).apiUsed =
      ApiUsed.gemini ∧
    (analyzeSentiment (.payload (.obj [("confidence", .num q)])) now text).sentiment =
      .undefined ∧
    (analyzeSentiment (.payload (.obj [("confidence", .num q)])) now text).sentenceBreakdown =
      .arr [] :=
  ⟨rfl, rfl, rfl, rfl, rfl, rfl⟩

/-- C5 counterexample: one item's unexpected (outside-the-modeled-path)
exception aborts the whole batch. With item 0 rejecting and item 1 set to
complete via the fallback (as the last conjunct shows it would), the
handler ends in the generic error status with no results committed — the
remaining item's successful result is not returned — and the quota is
unchanged. -/
theorem batch_item_exception_counterexample :
    (handleAnalyze mixedEnv "t0" initialState (.batch ["good stuff", "bad stuff"])).status =
      .error oopsMsg ∧
    (handleAnalyze mixedEnv "t0" initialState
      (.batch ["good stuff", "bad stuff"])).state.results = [] ∧
    (handleAnalyze mixedEnv "t0" initialState
      (.batch ["good stuff", "bad stuff"])).state.analysisCount = 0 ∧
    runItem (mixedEnv 1) "t0" "bad stuff" =
      .ok (analyzeSentiment .transportError "t0" "bad stuff") :=
  ⟨rfl, rfl, rfl, rfl⟩

/-- C5 amended: if any batch item's promise rejects with an unexpected
exception, `Promise.all` rejects and the whole batch aborts: the handler
ends in the generic error status, no item's result is returned, and no
item counts against the quota (the state is unchanged). -/
theorem batch_item_exception_aborts_batch (env : Nat → ItemBehavior) (now : String)
    (st : AppState) (input : AnalyzeInput)
    (hv : firstInvalid input.texts = none)
    (hq : ¬st.analysisCount + input.texts.length > MAX_ANALYSES)
    (he : promiseAll (dispatchBatch env now input.texts) = .error ()) :
    handleAnalyze env now st input = ⟨st, .error oopsMsg, input.texts⟩ := by
  simp only [handleAnalyze]
  rw [hv]
  simp only [if_neg hq]
  unfold runBatch
  rw [he]

/-- Witness for C5's amended theorem at the counterexample's inputs. -/
theorem batch_item_exception_aborts_batch_witness :
    handleAnalyze mixedEnv "t0" initialState (.batch ["good stuff", "bad stuff"]) =
      ⟨initialState, .error oopsMsg, ["good stuff", "bad stuff"]⟩ :=
  batch_item_exception_aborts_batch mixedEnv "t0" initialState
    (.batch ["good stuff", "bad stuff"]) rfl (by decide) rfl

/-- C6 counterexample: the batch rejection message does not identify which
text failed — a batch failing the letters rule at index 1 and one failing
it at index 0 produce the same message — and a compare request whose text
is invalid is rejected by the quota message, not a validation message,
when the quota is exhausted (the quota check precedes validation in
`handleCompare`). -/
theorem validation_message_counterexample :
    (handleAnalyze envAllTransport "t0" initialState
      (.batch ["good day", "1234"])).status = .error lettersMsg ∧
    (handleAnalyze envAllTransport "t0" initialState
      (.batch ["1234", "good day"])).status = .error lettersMsg ∧
    handleCompare .transportError ⟨15, []⟩ "1234" "fine words" =
      ⟨⟨15, []⟩, some compareQuotaMsg, none, 0⟩ :=
  ⟨rfl, rfl, rfl⟩

/-- C6 amended: every considered input text (the single text, each of the
first ten batch texts, or the compare texts when the quota is not yet
exhausted) that contains no alphabetic character or contains one of
`. ' "` is rejected before any backend call, with a message naming the
violated rule (the two rules have distinct fixed messages); for compare
requests the message also names which of A/B failed, while the batch
message does not carry the failing index. -/
theorem validation_rejects_identifying_rule :
    (∀ (env : Nat → ItemBehavior) (now : String) (st : AppState)
        (input : AnalyzeInput) (msg : String),
        firstInvalid input.texts = some msg →
        handleAnalyze env now st input = ⟨st, .error msg, []⟩) ∧
    (∀ t : String, t.data.any Char.isAlpha = false →
        isValidTextInput t = ⟨false, lettersMsg⟩) ∧
    (∀ t : String, t.data.any Char.isAlpha = true →
        t.data.any (fun c => c == '.' || c == '\'' || c == '"') = true →
        isValidTextInput t = ⟨false, punctMsg⟩) ∧
    lettersMsg ≠ punctMsg ∧
    (∀ (beh : CompareBehavior) (st : AppState) (tA tB : String),
        st.analysisCount < MAX_ANALYSES →
        (isValidTextInput tA).valid = false →
        handleCompare beh st tA tB =
          ⟨st, some ("Text A: " ++ (isValidTextInput tA).message), none, 0⟩) ∧
    (∀ (beh : CompareBehavior) (st : AppState) (tA tB : String),
        st.analysisCount < MAX_ANALYSES →
        (isValidTextInput tA).valid = true →
        (isValidTextInput tB).valid = false →
        handleCompare beh st tA tB =
          ⟨st, some ("Text B: " ++ (isValidTextInput tB).message), none, 0⟩) := by
  refine ⟨?_, ?_, ?_, by decide, ?_, ?_⟩
  · intro env now st input msg h
    simp only [handleAnalyze]
    rw [h]
  · intro t h
    simp [isValidTextInput, h]
  · intro t h1 h2
    simp [isValidTextInput, h1, h2]
  · intro beh st tA tB hq hA
    simp only [handleCompare]
    rw [if_neg (by omega : ¬st.analysisCount ≥ MAX_ANALYSES)]
    simp [hA]
  · intro beh st tA tB hq hA hB
    simp only [handleCompare]
    rw [if_neg (by omega : ¬st.analysisCount ≥ MAX_ANALYSES)]
    simp [hA, hB]

/-- C7: a request of `n` units (the batch's considered length, or 1 for a
comparison) arriving at the quota gate with `used + n > 15` is rejected
without mutating `used`; the analyze rejection message is the fixed
template applied to the remaining allowance `15 - used`, and the compare
rejection (which only ever fires with zero remaining allowance, as the
third conjunct shows) is the fixed exhausted-quota message. In particular
at `used = 14`, a 3-item batch is rejected with remaining allowance 1 and
`used` unchanged. -/
theorem quota_rejection_carries_remaining :
    (∀ (env : Nat → ItemBehavior) (now : String) (st : AppState) (input : AnalyzeInput),
        firstInvalid input.texts = none →
        st.analysisCount + input.texts.length > MAX_ANALYSES →
        handleAnalyze env now st input =
          ⟨st, .error (quotaAnalyzeMsg (MAX_ANALYSES - st.analysisCount)), []⟩) ∧
    (∀ (beh : CompareBehavior) (st : AppState) (tA tB : String),
        st.analysisCount + 1 > MAX_ANALYSES →
        handleCompare beh st tA tB = ⟨st, some compareQuotaMsg, none, 0⟩) ∧
    (∀ st : AppState, st.analysisCount ≤ MAX_ANALYSES →
        st.analysisCount + 1 > MAX_ANALYSES → MAX_ANALYSES - st.analysisCount = 0) ∧
    (handleAnalyze envAllTransport "t0" ⟨14, []⟩ (.batch ["a", "b", "c"]) =
      ⟨⟨14, []⟩, .error (quotaAnalyzeMsg 1), []⟩) ∧
    quotaAnalyzeMsg 1 =
      "You've reached your usage limit for this session. You can perform 1 more analysis." := by
  refine ⟨?_, ?_, ?_, rfl, rfl⟩
  · intro env now st input hv hq
    simp only [handleAnalyze]
    rw [hv]
    simp only [if_pos hq]
  · intro beh st tA tB hq
    simp only [handleCompare]
    rw [if_pos (by omega : st.analysisCount ≥ MAX_ANALYSES)]
  · intro st h1 h2
    omega

/-- C8: when the comparison backend operation fails, `compareSentiments`
rethrows the fixed user-facing message and `handleCompare` terminates in
the failed state: the modal surfaces that message, the quota counter and
the history are untouched (the returned state is the input state), and the
outcome carries no analysis result — in particular no fallback to the
local classifier, which the comparison path never invokes. -/
theorem compare_failure_no_fallback (beh : CompareBehavior)
    (hb : isCompareFailure beh = true) (st : AppState) (tA tB : String)
    (hq : st.analysisCount < MAX_ANALYSES)
    (hA : (isValidTextInput tA).valid = true)
    (hB : (isValidTextInput tB).valid = true) :
    compareSentiments beh tA tB = .error compareFailMsg ∧
    handleCompare beh st tA tB = ⟨st, none, some (.error compareFailMsg), 1⟩ := by
  have hcs : compareSentiments beh tA tB = .error compareFailMsg := by
    cases beh with
    | payload v => simp [isCompareFailure] at hb
    | noApiKey => rfl
    | transportError => rfl
    | malformedJson => rfl
  refine ⟨hcs, ?_⟩
  simp only [handleCompare]
  rw [if_neg (by omega : ¬st.analysisCount ≥ MAX_ANALYSES)]
  simp [hA, hB, hcs]

/-- Witness for C8: a transport failure on a fresh session with two valid
texts. -/
theorem compare_failure_no_fallback_witness :
    compareSentiments .transportError "nice words" "bad words" = .error compareFailMsg ∧
    handleCompare .transportError initialState "nice words" "bad words" =
      ⟨initialState, none, some (.error compareFailMsg), 1⟩ :=
  compare_failure_no_fallback .transportError rfl initialState "nice words" "bad words"
    (by decide) (by decide) (by decide)

/-- C9: `handleAnalyze` considers at most the first ten batch texts —
running a batch is the same as running its ten-element prefix — and with
the fifteen valid texts of `fifteenTexts` on a fresh session exactly the
first ten are dispatched to `analyzeSentiment`, ten results are committed,
and the status is the ten-item success message: the five extra texts are
dropped silently, with no error for them. -/
theorem batch_cap_first_ten :
    (∀ (env : Nat → ItemBehavior) (now : String) (st : AppState) (ts : List String),
        handleAnalyze env now st (.batch ts) = handleAnalyze env now st (.batch (ts.take 10))) ∧
    fifteenTexts.length = 15 ∧
    (handleAnalyze envAllTransport "t0" initialState (.batch fifteenTexts)).backendCalls =
      fifteenTexts.take 10 ∧
    (handleAnalyze envAllTransport "t0" initialState
      (.batch fifteenTexts)).state.results.length = 10 ∧
    (handleAnalyze envAllTransport "t0" initialState
      (.batch fifteenTexts)).state.analysisCount = 10 ∧
    (handleAnalyze envAllTransport "t0" initialState (.batch fifteenTexts)).status =
      .success (successMsg 10) := by
  refine ⟨?_, rfl, rfl, rfl, rfl, rfl⟩
  intro env now st ts
  simp only [handleAnalyze, AnalyzeInput.texts, List.take_take, Nat.min_self]

/-- C10: the fallback counts are substring containment on the lower-cased
text, each lexicon word counted at most once: a text repeating `love` four
times still counts one positive hit and keeps confidence 0.75, while `sad`
occurring only inside the longer token `sadly` still registers one
negative signal (labelling "It ended sadly" negative), and matching is
case-insensitive (`LOVE` counts). -/
theorem fallback_lexicon_substring_counts (now text : String) :
    positiveCount text =
      (positiveWords.filter (fun w => containsSub (lowerChars text) w.data)).length ∧
    negativeCount text =
      (negativeWords.filter (fun w => containsSub (lowerChars text) w.data)).length ∧
    positiveCount "love love love love" = 1 ∧
    (createFallbackAnalysis now "love love love love").confidence = .num 0.75 ∧
    negativeCount "It ended sadly" = 1 ∧
    positiveCount "It ended sadly" = 0 ∧
    (createFallbackAnalysis now "It ended sadly").sentiment = .str "negative" ∧
    positiveCount "LOVE it" = 1 := by
  have h1 : positiveCount "love love love love" > negativeCount "love love love love" := by
    decide
  have h2 : negativeCount "It ended sadly" > positiveCount "It ended sadly" := by decide
  refine ⟨rfl, rfl, by decide, ?_, by decide, by decide, ?_, by decide⟩
  · have e : (createFallbackAnalysis now "love love love love").confidence =
        .num (fallbackCore "love love love love").2 := rfl
    rw [e, fallbackCore_pos _ h1,
      show positiveCount "love love love love" = 1 from by decide]
    simp only [JsValue.num.injEq]
    norm_num [min_def]
  · have e : (createFallbackAnalysis now "It ended sadly").sentiment =
        .str (fallbackCore "It ended sadly").1.value := rfl
    rw [e, fallbackCore_neg _ h2]
    rfl

end SentiCoreX
